import Mathlib

/-!
Verification of the heartwood specification against a shallow embedding of the
repository's Rust sources: the CRDT clock primitives (`radicle-crdt/src/clock.rs`),
the collaborative-object update operation (`radicle-cob/src/object/collaboration/update.rs`),
the typed COB store (`radicle/src/cob/store.rs`), and the node service harness
(`node/src/test/peer.rs`).  Backing storage, signers and the change graph are
embedded as oracle functions, matching their role as opaque capabilities.
-/

namespace Crdt

/-- Modelled from the spec: `Max<T>` of `radicle-crdt/src/ord.rs` is absent from the
source excerpt.  Per §4.1 it is a join-semilattice wrapper where `merge(a,b) = max(a,b)`,
and its `incr` helper is `value = value + 1`.  Specialized to `u64` as used by `Lamport`. -/
structure Max where
  value : Nat
deriving DecidableEq, Repr

/-- Rust `Max::get` returns the wrapped value. -/
def Max.get (m : Max) : Nat :=
  m.value

/-- Rust `Max::incr`: `value = value + 1` (spec §4.1). -/
def Max.incr (m : Max) : Max :=
  ⟨m.value + 1⟩

/-- Rust `Max::merge(a, b) = max(a, b)` (spec §4.1, semilattice join). -/
def Max.merge (a b : Max) : Max :=
  ⟨Nat.max a.value b.value⟩

/-- Rust `Max::default()` wraps the default value `0`. -/
def Max.default : Max :=
  ⟨0⟩

/-- Rust `Lamport` clock: a wrapper around `Max<u64>` (`clock.rs:13-15`). -/
structure Lamport where
  counter : Max
deriving DecidableEq, Repr

/-- Rust `Lamport::get` (`clock.rs:19-21`): return the clock value. -/
def Lamport.get (l : Lamport) : Nat :=
  l.counter.get

/-- Rust `Lamport::tick` (`clock.rs:25-28`): increment the clock; the mutated clock is
also the returned one (`*self`), so the pure embedding returns the new state. -/
def Lamport.tick (l : Lamport) : Lamport :=
  ⟨l.counter.incr⟩

/-- Rust `Lamport::merge` (`clock.rs:32-35`): merge the counters (max), then tick. -/
def Lamport.merge (a other : Lamport) : Lamport :=
  (Lamport.mk (a.counter.merge other.counter)).tick

/-- Rust `Lamport::reset` (`clock.rs:38-40`): reset to the default state. -/
def Lamport.reset (_ : Lamport) : Lamport :=
  ⟨Max.default⟩

/-- Rust `From<u64> for Lamport` (`clock.rs:43-49`). -/
def Lamport.ofNat (n : Nat) : Lamport :=
  ⟨⟨n⟩⟩

end Crdt

namespace Cob

/-- Content-address of an individual change. -/
abbrev ChangeId := Nat

/-- Content-address of the root change of a collaborative object. -/
abbrev ObjectId := Nat

/-- Public key of a node / signer. -/
abbrev NodeId := Nat

/-- Content-address of the parent identity a COB belongs to. -/
abbrev ResourceId := Nat

/-- Namespaced type name such as `radicle.issue`. -/
abbrev TypeName := String

/-- A git ref name. -/
abbrev RefName := String

/-- Ordered sequence of opaque byte payloads (`Contents`). -/
abbrev Contents := List (List Nat)

/-- The `S::Identifier` passed through to the object storage. -/
abbrev Identifier := Nat

/-- A change's signature: the signing key and the opaque signature bytes. -/
structure Signature where
  key : NodeId
  sig : Nat
deriving DecidableEq, Repr

/-- A signed, content-addressed change record (spec §3, `Change`); fields not
consumed by `update` are kept as their content summaries. -/
structure Change where
  id : ChangeId
  parents : List ChangeId
  resource : ResourceId
  signature : Signature
  timestamp : Nat
deriving DecidableEq, Repr

/-- One evaluated history entry (spec §3, `History`). -/
structure Entry where
  id : ChangeId
  author : NodeId
  resource : ResourceId
  contents : Contents
  timestamp : Nat
deriving DecidableEq, Repr

/-- Modelled from the spec: the `History` type of `radicle-cob` is absent from the
source excerpt; per §3/§4.4 it is an ordered sequence of entries. -/
structure History where
  entries : List Entry
deriving DecidableEq, Repr

/-- Modelled from the spec: `History::extend(id, key, resource, contents, timestamp)`
appends a new entry (§4.4). -/
def History.extend (h : History) (id : ChangeId) (key : NodeId) (resource : ResourceId)
    (contents : Contents) (timestamp : Nat) : History :=
  ⟨h.entries ++ [⟨id, key, resource, contents, timestamp⟩]⟩

/-- Modelled from the spec: `CollaborativeObject` of `radicle-cob` is absent from the
source excerpt; per §3 it is `{ id, typename, history, tips }`, where `tips` is the
set of sinks of the change graph (embedded as a list). -/
structure CollaborativeObject where
  id : ObjectId
  typename : TypeName
  history : History
  tips : List ChangeId
deriving DecidableEq, Repr

/-- Rust `cob.history()` accessor. -/
def CollaborativeObject.getHistory (o : CollaborativeObject) : History :=
  o.history

/-- The `change::Create` metadata handed to `Store::create` (spec §4.2). -/
structure Create where
  tips : List ChangeId
  history_type : String
  contents : Contents
  typename : TypeName
  message : String
deriving DecidableEq, Repr

/-- The `Update` argument record of `update.rs:14-25`. -/
structure UpdateArgs where
  history_type : String
  changes : Contents
  object_id : ObjectId
  typename : TypeName
  message : String
deriving DecidableEq, Repr

/-- Rust `error::Update` as produced by `update.rs`: ref enumeration / ref update
failures are wrapped as `Refs`, a missing object is `NoSuchObject`, and
`storage.create` failures convert via `From`. -/
inductive UpdateError
  | refs
  | noSuchObject
  | createFailed
deriving DecidableEq, Repr

/-- A call made against the backing store during `update`, recorded in order. -/
inductive StoreCall
  | create (resource : ResourceId) (signer : NodeId) (args : Create)
  | update (ident : Identifier) (tn : TypeName) (oid : ObjectId) (ch : Change)
deriving DecidableEq, Repr

/-- The abstract backing `Store` capability (spec §4.2) together with change-graph
loading and evaluation (`ChangeGraph::load(...).map(|g| g.evaluate())`), embedded as
oracle functions.  Errors of the store are opaque. -/
structure Storage where
  objects : TypeName → ObjectId → Except Unit (List RefName)
  loadEval : List RefName → TypeName → ObjectId → Option CollaborativeObject
  create : ResourceId → NodeId → Create → Except Unit Change
  update : Identifier → TypeName → ObjectId → Change → Except Unit Unit

/-- The collaborative-object `update` of `update.rs:45-96`, embedded over the
storage oracle; the signer is its public key, the resource its `content_id()`.
Besides the result it returns the trace of backing-store calls made. -/
def update (storage : Storage) (signer : NodeId) (resource : ResourceId)
    (identifier : Identifier) (args : UpdateArgs) :
    Except UpdateError CollaborativeObject × List StoreCall :=
  match storage.objects args.typename args.object_id with
  | .error _ => (.error .refs, [])
  | .ok existingRefs =>
    match storage.loadEval existingRefs args.typename args.object_id with
    | none => (.error .noSuchObject, [])
    | some object =>
      match storage.create resource signer
        ⟨object.tips, args.history_type, args.changes, args.typename, args.message⟩ with
      | .error _ =>
          (.error .createFailed,
           [.create resource signer
              ⟨object.tips, args.history_type, args.changes, args.typename, args.message⟩])
      | .ok change =>
        match storage.update identifier args.typename args.object_id change with
        | .error _ =>
            (.error .refs,
             [.create resource signer
                ⟨object.tips, args.history_type, args.changes, args.typename, args.message⟩,
              .update identifier args.typename args.object_id change])
        | .ok _ =>
            (.ok { object with
               history := object.history.extend change.id change.signature.key
                 change.resource args.changes change.timestamp },
             [.create resource signer
                ⟨object.tips, args.history_type, args.changes, args.typename, args.message⟩,
              .update identifier args.typename args.object_id change])

end Cob

namespace Crdt

/-- C1: after `a.merge(b)` the receiver's value is exactly `max(a, b) + 1`, hence
strictly greater than both previous values; concretely, `Lamport(5).merge(Lamport(3))`
yields `6`, and a subsequent `b.merge(a)` (with `b = Lamport(3)` and `a` now `6`)
yields `7`. -/
theorem lamport_merge_strict_max :
    (∀ a b : Lamport,
      (a.merge b).get = Nat.max a.get b.get + 1 ∧ Nat.max a.get b.get < (a.merge b).get) ∧
    ((Lamport.ofNat 5).merge (Lamport.ofNat 3)).get = 6 ∧
    ((Lamport.ofNat 3).merge ((Lamport.ofNat 5).merge (Lamport.ofNat 3))).get = 7 := by
  refine ⟨fun a b => ⟨rfl, Nat.lt_succ_self _⟩, rfl, rfl⟩

/-- C2 counterexample: `Lamport::merge` is neither idempotent nor associative:
merging `Lamport(0)` with itself yields `1`, not `0`, and bracketing matters
because each merge adds one. -/
theorem lamport_merge_not_idempotent :
    ((Lamport.ofNat 0).merge (Lamport.ofNat 0)).get ≠ (Lamport.ofNat 0).get ∧
    (((Lamport.ofNat 5).merge (Lamport.ofNat 0)).merge (Lamport.ofNat 0)).get ≠
      ((Lamport.ofNat 5).merge ((Lamport.ofNat 0).merge (Lamport.ofNat 0))).get := by
  decide

/-- C2 amended: `Max::merge` is commutative, associative and idempotent;
`Lamport::merge` is commutative, but merging a clock with itself increments its
value (max then tick), so it is not idempotent. -/
theorem max_merge_laws :
    (∀ a b : Max, a.merge b = b.merge a) ∧
    (∀ a b c : Max, (a.merge b).merge c = a.merge (b.merge c)) ∧
    (∀ a : Max, a.merge a = a) ∧
    (∀ a b : Lamport, a.merge b = b.merge a) ∧
    (∀ a : Lamport, (a.merge a).get = a.get + 1) := by
  refine ⟨fun a b => ?_, fun a b c => ?_, fun a => ?_, fun a b => ?_, fun a => ?_⟩
  · simp [Max.merge, Nat.max_comm]
  · simp [Max.merge, Nat.max_assoc]
  · simp [Max.merge]
  · simp [Lamport.merge, Max.merge, Lamport.tick, Max.incr, Nat.max_comm]
  · simp [Lamport.merge, Max.merge, Lamport.tick, Max.incr, Lamport.get, Max.get]

/-- C8: `tick` on a clock holding `n` produces the clock holding `n + 1`; the
returned clock is the mutated clock (`*self`), so both `get` to `n + 1`. -/
theorem lamport_tick_succ :
    ∀ n : Nat, (Lamport.ofNat n).tick = Lamport.ofNat (n + 1) ∧
      ((Lamport.ofNat n).tick).get = n + 1 := by
  intro n
  exact ⟨rfl, rfl⟩

end Crdt

namespace Cob

/-- The typed store error (`radicle/src/cob/store.rs:25-37`); payload-free except
for `NotFound`, which carries the typename and object id. -/
inductive StoreError
  | createErr
  | updateErr
  | retrieve
  | identity
  | notFound (tn : TypeName) (oid : ObjectId)
deriving DecidableEq, Repr

/-- The typed facade `Store<T>` of `store.rs`, embedded over oracles: `cobGet` and
`cobList` are the low-level `cob::get` / `cob::list` (opaque retrieve errors), and
`fromHistory` is `T::from_history`. -/
structure TypedStore (T : Type) where
  typeName : TypeName
  cobGet : ObjectId → Except Unit (Option CollaborativeObject)
  cobList : Except Unit (List CollaborativeObject)
  fromHistory : History → Except StoreError T

/-- Rust `Store::get` (`store.rs:125-136`): look the object up, return `Ok(None)` when
absent, otherwise project it through `T::from_history`. -/
def TypedStore.get {T : Type} (s : TypedStore T) (id : ObjectId) :
    Except StoreError (Option T) :=
  match s.cobGet id with
  | .error _ => .error .retrieve
  | .ok none => .ok none
  | .ok (some cob) =>
    match s.fromHistory cob.getHistory with
    | .error e => .error e
    | .ok obj => .ok (some obj)

/-- The semantics of Rust's `collect::<Result<Vec<_>, _>>()`: map each element,
stopping at the first error. -/
def collectResults {T : Type} (g : CollaborativeObject → Except StoreError (ObjectId × T)) :
    List CollaborativeObject → Except StoreError (List (ObjectId × T))
  | [] => .ok []
  | o :: rest =>
    match g o with
    | .error e => .error e
    | .ok x =>
      match collectResults g rest with
      | .error e => .error e
      | .ok xs => .ok (x :: xs)

/-- Rust `Store::list` (`store.rs:139-148`): list the raw objects, project each through
`T::from_history`, collecting into a single result. -/
def TypedStore.list {T : Type} (s : TypedStore T) :
    Except StoreError (List (ObjectId × T)) :=
  match s.cobList with
  | .error _ => .error .retrieve
  | .ok raw =>
    collectResults (fun o => (s.fromHistory o.getHistory).map (fun obj => (o.id, obj))) raw

end Cob

namespace Cob

/-- A concrete evaluated object used to exercise the update path. -/
def testObject : CollaborativeObject :=
  ⟨1, "radicle.issue", ⟨[⟨1, 42, 7, [[0]], 10⟩]⟩, [1]⟩

/-- A concrete change returned by the test storage's `create`. -/
def testChange : Change :=
  ⟨100, [1], 7, ⟨42, 5⟩, 99⟩

/-- A backing storage oracle on which `update` succeeds. -/
def testStorage : Storage :=
  ⟨fun _ _ => .ok ["refs/cobs/radicle.issue/1"],
   fun _ _ _ => some testObject,
   fun _ _ _ => .ok testChange,
   fun _ _ _ _ => .ok ()⟩

/-- A backing storage oracle whose change graph loads no object. -/
def emptyStorage : Storage :=
  ⟨fun _ _ => .ok [],
   fun _ _ _ => none,
   fun _ _ _ => .ok testChange,
   fun _ _ _ _ => .ok ()⟩

/-- Concrete update arguments. -/
def testArgs : UpdateArgs :=
  ⟨"automerge", [[1]], 1, "radicle.issue", "add comment"⟩

/-- C3: every successful run of the COB `update` passes the loaded object's tips to
`store.create`, extends the returned object's history with exactly one entry built
from the new change's id, signature key, resource, the supplied contents and the
change's timestamp, and afterwards publishes the ref via `store.update`. -/
theorem update_success_shape (st : Storage) (signer : NodeId) (resource : ResourceId)
    (ident : Identifier) (args : UpdateArgs) (obj : CollaborativeObject)
    (t : List StoreCall)
    (h : update st signer resource ident args = (.ok obj, t)) :
    ∃ refs loaded change,
      st.objects args.typename args.object_id = .ok refs ∧
      st.loadEval refs args.typename args.object_id = some loaded ∧
      st.create resource signer
        ⟨loaded.tips, args.history_type, args.changes, args.typename, args.message⟩ =
        .ok change ∧
      obj.history.entries = loaded.history.entries ++
        [⟨change.id, change.signature.key, change.resource, args.changes,
          change.timestamp⟩] ∧
      st.update ident args.typename args.object_id change = .ok () ∧
      t = [.create resource signer
             ⟨loaded.tips, args.history_type, args.changes, args.typename, args.message⟩,
           .update ident args.typename args.object_id change] := by
  unfold update at h
  split at h
  · simp at h
  · split at h
    · simp at h
    · split at h
      · simp at h
      · split at h
        · simp at h
        · rename_i e1 refs hobj e2 loaded hload e3 change hcreate e4 u hupdate
          obtain ⟨h1, h2⟩ := Prod.mk.injEq .. ▸ h
          refine ⟨refs, loaded, change, hobj, hload, hcreate, ?_, ?_, h2.symm⟩
          · cases h1
            rfl
          · cases u
            exact hupdate

/-- C3 witness: the success shape at the concrete test storage. -/
theorem update_success_shape_holds :
    ∃ refs loaded change,
      testStorage.objects testArgs.typename testArgs.object_id = .ok refs ∧
      testStorage.loadEval refs testArgs.typename testArgs.object_id = some loaded ∧
      testStorage.create 7 42
        ⟨loaded.tips, testArgs.history_type, testArgs.changes, testArgs.typename,
         testArgs.message⟩ = .ok change ∧
      (⟨1, "radicle.issue",
        ⟨[⟨1, 42, 7, [[0]], 10⟩, ⟨100, 42, 7, [[1]], 99⟩]⟩, [1]⟩ :
         CollaborativeObject).history.entries = loaded.history.entries ++
        [⟨change.id, change.signature.key, change.resource, testArgs.changes,
          change.timestamp⟩] ∧
      testStorage.update 3 testArgs.typename testArgs.object_id change = .ok () ∧
      [StoreCall.create 7 42 ⟨[1], "automerge", [[1]], "radicle.issue", "add comment"⟩,
       StoreCall.update 3 "radicle.issue" 1 testChange] =
        [.create 7 42
           ⟨loaded.tips, testArgs.history_type, testArgs.changes, testArgs.typename,
            testArgs.message⟩,
         .update 3 testArgs.typename testArgs.object_id change] :=
  update_success_shape testStorage 42 7 3 testArgs
    ⟨1, "radicle.issue", ⟨[⟨1, 42, 7, [[0]], 10⟩, ⟨100, 42, 7, [[1]], 99⟩]⟩, [1]⟩
    [.create 7 42 ⟨[1], "automerge", [[1]], "radicle.issue", "add comment"⟩,
     .update 3 "radicle.issue" 1 testChange]
    rfl

/-- C4: when the change graph loads no object for the given id, `update` returns
`NoSuchObject` and makes no backing-store `create` or `update` call at all. -/
theorem update_no_such_object (st : Storage) (signer : NodeId) (resource : ResourceId)
    (ident : Identifier) (args : UpdateArgs) (refs : List RefName)
    (hobj : st.objects args.typename args.object_id = .ok refs)
    (hload : st.loadEval refs args.typename args.object_id = none) :
    update st signer resource ident args = (.error .noSuchObject, []) := by
  unfold update
  rw [hobj]
  simp only [hload]

/-- C4 witness: the empty storage yields `NoSuchObject` with an empty call trace. -/
theorem update_no_such_object_holds :
    update emptyStorage 42 7 3 testArgs = (.error .noSuchObject, []) :=
  update_no_such_object emptyStorage 42 7 3 testArgs [] rfl rfl

end Cob

namespace Cob

/-- Any error returned by `Store::get` is either a wrapped retrieve error or the
error returned by `T::from_history` on the found object's history. -/
theorem TypedStore.get_error_shape {T : Type} (s : TypedStore T) (id : ObjectId)
    (e : StoreError) (h : s.get id = .error e) :
    e = .retrieve ∨
      ∃ cob, s.cobGet id = .ok (some cob) ∧ s.fromHistory cob.getHistory = .error e := by
  cases hg : s.cobGet id with
  | error u =>
    simp [TypedStore.get, hg] at h
    exact Or.inl h.symm
  | ok o =>
    cases o with
    | none => simp [TypedStore.get, hg] at h
    | some cob =>
      cases hf : s.fromHistory cob.getHistory with
      | error e2 =>
        simp [TypedStore.get, hg, hf] at h
        exact Or.inr ⟨cob, rfl, by rw [hf, h]⟩
      | ok obj => simp [TypedStore.get, hg, hf] at h

/-- C9: when the backing lookup finds no object, `Store::get` returns `Ok(None)`;
and `get` itself never produces the `NotFound` error variant: whenever
`T::from_history` does not produce `NotFound`, neither does `get`. -/
theorem store_get_absent_ok_none {T : Type} (s : TypedStore T) (id : ObjectId) :
    (s.cobGet id = .ok none → s.get id = .ok none) ∧
    ((∀ hist tn oid, s.fromHistory hist ≠ .error (.notFound tn oid)) →
      ∀ tn oid, s.get id ≠ .error (.notFound tn oid)) := by
  constructor
  · intro h
    simp [TypedStore.get, h]
  · intro hnf tn oid hcontra
    rcases TypedStore.get_error_shape s id _ hcontra with h | ⟨cob, _, hf⟩
    · exact StoreError.noConfusion h
    · exact hnf _ _ _ hf

/-- A typed store whose backing lookup finds nothing. -/
def absentStore : TypedStore Nat :=
  ⟨"radicle.issue", fun _ => .ok none, .ok [], fun h => .ok h.entries.length⟩

/-- C9 witness: `get` on the absent store returns `Ok(None)`. -/
theorem store_get_absent_ok_none_holds : TypedStore.get absentStore 0 = .ok none :=
  (store_get_absent_ok_none absentStore 0).1 rfl

/-- Collecting succeeds and maps every element when the projection succeeds
everywhere. -/
theorem collectResults_ok {T : Type}
    (g : CollaborativeObject → Except StoreError (ObjectId × T))
    (k : CollaborativeObject → ObjectId × T) (l : List CollaborativeObject)
    (h : ∀ o ∈ l, g o = .ok (k o)) : collectResults g l = .ok (l.map k) := by
  induction l with
  | nil => rfl
  | cons o rest ih =>
    have ho := h o (by simp)
    have hrest : ∀ o' ∈ rest, g o' = .ok (k o') := fun o' ho' => h o' (by simp [ho'])
    simp [collectResults, ho, ih hrest]

/-- Collecting fails outright when any element's projection fails. -/
theorem collectResults_error {T : Type}
    (g : CollaborativeObject → Except StoreError (ObjectId × T))
    (l : List CollaborativeObject) (o : CollaborativeObject) (ho : o ∈ l)
    (e : StoreError) (he : g o = .error e) :
    ∃ e', collectResults g l = .error e' := by
  induction l with
  | nil => cases ho
  | cons a rest ih =>
    rcases List.mem_cons.mp ho with h | h
    · subst h
      exact ⟨e, by simp [collectResults, he]⟩
    · cases hga : g a with
      | error e2 => exact ⟨e2, by simp [collectResults, hga]⟩
      | ok x =>
        obtain ⟨e', he'⟩ := ih h
        exact ⟨e', by simp [collectResults, hga, he']⟩

/-- C10: `Store::list` is all-or-nothing: if `T::from_history` fails on any listed
object, `list` returns an error and no partial list; if it succeeds on all of them,
`list` returns the pair `(id, projection)` for every listed object, in order. -/
theorem store_list_all_or_nothing {T : Type} (s : TypedStore T)
    (raw : List CollaborativeObject) (f : CollaborativeObject → T)
    (hraw : s.cobList = .ok raw) :
    ((∃ o ∈ raw, ∃ e, s.fromHistory o.getHistory = .error e) →
      ∃ e, s.list = .error e) ∧
    ((∀ o ∈ raw, s.fromHistory o.getHistory = .ok (f o)) →
      s.list = .ok (raw.map (fun o => (o.id, f o)))) := by
  constructor
  · rintro ⟨o, ho, e, he⟩
    obtain ⟨e', he'⟩ := collectResults_error
      (fun o => (s.fromHistory o.getHistory).map (fun obj => (o.id, obj))) raw o ho e
      (by simp [Except.map, he])
    exact ⟨e', by simp [TypedStore.list, hraw, he']⟩
  · intro h
    have hall := collectResults_ok
      (fun o => (s.fromHistory o.getHistory).map (fun obj => (o.id, obj)))
      (fun o => (o.id, f o)) raw (fun o ho => by simp [Except.map, h o ho])
    simp [TypedStore.list, hraw, hall]

/-- A typed store listing one raw object, projected to its history length. -/
def listStore : TypedStore Nat :=
  ⟨"radicle.issue", fun _ => .ok none, .ok [testObject], fun h => .ok h.entries.length⟩

/-- C10 witness: listing the one-object store yields its id paired with the
projection. -/
theorem store_list_all_or_nothing_holds : TypedStore.list listStore = .ok [(1, 1)] :=
  (store_list_all_or_nothing listStore [testObject]
    (fun o => o.getHistory.entries.length) rfl).2 (fun _ _ => rfl)

end Cob

namespace Node

/-- A socket address, abstracted to its identity. -/
abbrev Addr := Nat

/-- A node's public key. -/
abbrev NodeId := Nat

/-- A hosted project identifier. -/
abbrev ObjectId := Nat

/-- Connection direction (`Link`). -/
inductive Link
  | inbound
  | outbound
deriving DecidableEq, Repr

/-- Session lifecycle states (spec §4.6). -/
inductive SessionState
  | handshaking
  | initialized
  | active
  | closing
deriving DecidableEq, Repr

/-- A per-peer session record (spec §4.6): `{ addr, link, state, since }`. -/
structure Session where
  addr : Addr
  link : Link
  state : SessionState
  since : Nat
deriving DecidableEq, Repr

/-- Wire messages (spec §3, `Message`), with payloads abstracted to their shapes. -/
inductive Message
  | init (node : NodeId) (timestamp : Nat) (addrs : List Addr) (gitUrl : String)
  | inventoryAnnouncement (node : NodeId) (inventory : List ObjectId) (timestamp : Nat)
  | nodeAnnouncement (node : NodeId) (features : Nat) (nodeAlias : String)
      (addrs : List Addr) (timestamp : Nat)
  | refsAnnouncement (node : NodeId) (project : ObjectId) (refs : List (String × Nat))
      (timestamp : Nat)
deriving DecidableEq, Repr

/-- A network envelope: a magic tag wrapping one message (spec §3). -/
structure Envelope where
  magic : Nat
  msg : Message
deriving DecidableEq, Repr

/-- Disconnect reasons used by the state machine (spec §4.6). -/
inductive DisconnectReason
  | protocolError
  | protocolViolation
  | timeout
deriving DecidableEq, Repr

/-- Outbox I/O entries (spec §3, `Outbox I/O`). -/
inductive IoOp
  | write (peer : Addr) (envs : List Envelope)
  | connect (addr : Addr)
  | disconnect (peer : Addr) (reason : DisconnectReason)
  | setTimer (d : Nat)
  | wakeup
deriving DecidableEq, Repr

/-- Modelled from the spec: the node service state of `node/src/service.rs`, absent
from the source excerpt; per §4.6/§9 it owns its configuration, clock, inventory,
sessions and outbox. -/
structure ServiceState where
  nodeId : NodeId
  magic : Nat
  clock : Nat
  listen : List Addr
  gitUrl : String
  inventory : List ObjectId
  sessions : List (Addr × Session)
  outbox : List IoOp
deriving DecidableEq, Repr

/-- Wrap a message into an envelope tagged with the configured network magic. -/
def ServiceState.envelope (s : ServiceState) (m : Message) : Envelope :=
  ⟨s.magic, m⟩

/-- Modelled from the spec: `Service::initialize(now)` sets the session clock and
emits startup timers (§4.6). -/
def ServiceState.init (s : ServiceState) (now : Nat) : ServiceState :=
  { s with clock := now, outbox := s.outbox ++ [.setTimer 1, .wakeup] }

/-- Modelled from the spec: `connected(addr, local, link)` creates
`Session { addr, link, state: Handshaking, since: now }`; on an outbound link the
service emits `Initialize` followed by `InventoryAnnouncement` to the new peer
(§4.6 transition table, scenario S1). -/
def ServiceState.connected (s : ServiceState) (addr : Addr) (_localAddr : Addr)
    (link : Link) : ServiceState :=
  match link with
  | .outbound =>
    { s with
      sessions := s.sessions ++ [(addr, ⟨addr, link, .handshaking, s.clock⟩)],
      outbox := s.outbox ++
        [.write addr
          [s.envelope (.init s.nodeId s.clock s.listen s.gitUrl),
           s.envelope (.inventoryAnnouncement s.nodeId s.inventory s.clock)]] }
  | .inbound =>
    { s with sessions := s.sessions ++ [(addr, ⟨addr, link, .handshaking, s.clock⟩)] }

/-- Replace the state of the session registered under `peer`, leaving the others
untouched. -/
def setSessionState : List (Addr × Session) → Addr → SessionState →
    List (Addr × Session)
  | [], _, _ => []
  | (a, sess) :: rest, peer, st =>
    if a = peer then (a, { sess with state := st }) :: setSessionState rest peer st
    else (a, sess) :: setSessionState rest peer st

/-- Look up the session registered under an address. -/
def lookupSession : List (Addr × Session) → Addr → Option Session
  | [], _ => none
  | (a, sess) :: rest, peer => if a = peer then some sess else lookupSession rest peer

/-- Modelled from the spec: the session-specific message handler (§4.6 transition
table): `Initialize` completes the handshake, an `InventoryAnnouncement` on an
initialized session activates it, and a non-`Initialize` message while handshaking
is a protocol violation. -/
def ServiceState.handleMessage (s : ServiceState) (peer : Addr) (m : Message) :
    ServiceState :=
  match lookupSession s.sessions peer with
  | none => s
  | some sess =>
    match sess.state, m with
    | .handshaking, .init .. =>
        { s with sessions := setSessionState s.sessions peer .initialized }
    | .handshaking, _ =>
        { s with sessions := setSessionState s.sessions peer .closing,
                 outbox := s.outbox ++ [.disconnect peer .protocolViolation] }
    | .initialized, .inventoryAnnouncement .. =>
        { s with sessions := setSessionState s.sessions peer .active }
    | _, _ => s

/-- Modelled from the spec: `received_message(peer, envelope)` validates the
envelope magic against the configured network constant; on mismatch the envelope
is dropped, the session transitions to `Closing` and a protocol-error disconnect
is emitted (§4.6, scenario S2); otherwise the message is fed to the handler. -/
def ServiceState.receivedMessage (s : ServiceState) (peer : Addr) (env : Envelope) :
    ServiceState :=
  if env.magic = s.magic then
    s.handleMessage peer env.msg
  else
    { s with sessions := setSessionState s.sessions peer .closing,
             outbox := s.outbox ++ [.disconnect peer .protocolError] }

/-- The test harness peer of `peer.rs:22-32`, restricted to the fields its
initialize path touches. -/
structure PeerState where
  initialized : Bool
  service : ServiceState
deriving DecidableEq, Repr

/-- Rust `Peer::initialize` (`peer.rs:109-116`): initialize the service once, guarded
by the `initialized` flag. -/
def PeerState.init (p : PeerState) (now : Nat) : PeerState :=
  if p.initialized then p
  else { p with initialized := true, service := p.service.init now }

/-- The messages written to a given peer, in outbox order. -/
def writesTo : List IoOp → Addr → List Message
  | [], _ => []
  | .write a envs :: rest, peer =>
    if a = peer then envs.map Envelope.msg ++ writesTo rest peer
    else writesTo rest peer
  | .connect _ :: rest, peer => writesTo rest peer
  | .disconnect _ _ :: rest, peer => writesTo rest peer
  | .setTimer _ :: rest, peer => writesTo rest peer
  | .wakeup :: rest, peer => writesTo rest peer

/-- The function `writesTo` distributes over outbox concatenation. -/
theorem writesTo_append (l1 l2 : List IoOp) (peer : Addr) :
    writesTo (l1 ++ l2) peer = writesTo l1 peer ++ writesTo l2 peer := by
  induction l1 with
  | nil => rfl
  | cons io rest ih =>
    cases io with
    | write a envs =>
      by_cases h : a = peer
      · simp [writesTo, h, ih]
      · simp [writesTo, h, ih]
    | connect a => simp [writesTo, ih]
    | disconnect a r => simp [writesTo, ih]
    | setTimer d => simp [writesTo, ih]
    | wakeup => simp [writesTo, ih]

end Node

namespace Node

/-- Setting a session's state is visible through lookup. -/
theorem lookupSession_setSessionState (sessions : List (Addr × Session)) (peer : Addr)
    (st : SessionState) (sess : Session)
    (h : lookupSession sessions peer = some sess) :
    lookupSession (setSessionState sessions peer st) peer =
      some { sess with state := st } := by
  induction sessions with
  | nil => simp [lookupSession] at h
  | cons p rest ih =>
    obtain ⟨a, s0⟩ := p
    by_cases ha : a = peer
    · subst ha
      have hs : s0 = sess := by simpa [lookupSession] using h
      subst hs
      simp [setSessionState, lookupSession]
    · have h' : lookupSession rest peer = some sess := by
        simpa [lookupSession, ha] using h
      simp [setSessionState, lookupSession, ha, ih h']

/-- C5: on `connected(addr, local, Outbound)` for a peer with no pending writes,
the messages written to that peer are exactly an `Initialize` followed by an
`InventoryAnnouncement`, in that order, before anything else. -/
theorem connected_outbound_handshake (s : ServiceState) (addr localAddr : Addr)
    (hfresh : writesTo s.outbox addr = []) :
    writesTo (s.connected addr localAddr .outbound).outbox addr =
      [Message.init s.nodeId s.clock s.listen s.gitUrl,
       Message.inventoryAnnouncement s.nodeId s.inventory s.clock] := by
  simp [ServiceState.connected, writesTo_append, hfresh, writesTo,
    ServiceState.envelope]

/-- A freshly constructed service with an empty outbox. -/
def freshService : ServiceState :=
  ⟨1, 777, 0, [5], "git-node-a", [9], [], []⟩

/-- C5 witness: the handshake pair written on an outbound connection of the fresh
service. -/
theorem connected_outbound_handshake_holds :
    writesTo (freshService.connected 8 2 .outbound).outbox 8 =
      [Message.init 1 0 [5] "git-node-a",
       Message.inventoryAnnouncement 1 [9] 0] :=
  connected_outbound_handshake freshService 8 2 rfl

/-- C6: an envelope whose magic differs from the configured constant is dropped:
the session transitions to `Closing`, a protocol-error disconnect is appended to
the outbox, and the resulting state is independent of the enclosed message. -/
theorem received_wrong_magic (s : ServiceState) (peer : Addr) (env : Envelope)
    (sess : Session) (hsess : lookupSession s.sessions peer = some sess)
    (hmagic : env.magic ≠ s.magic) :
    lookupSession (s.receivedMessage peer env).sessions peer =
      some { sess with state := .closing } ∧
    (s.receivedMessage peer env).outbox =
      s.outbox ++ [.disconnect peer .protocolError] ∧
    s.receivedMessage peer env =
      { s with sessions := setSessionState s.sessions peer .closing,
               outbox := s.outbox ++ [.disconnect peer .protocolError] } := by
  have hs : s.receivedMessage peer env =
      { s with sessions := setSessionState s.sessions peer .closing,
               outbox := s.outbox ++ [.disconnect peer .protocolError] } := by
    unfold ServiceState.receivedMessage
    rw [if_neg hmagic]
  refine ⟨?_, ?_, hs⟩
  · rw [hs]
    exact lookupSession_setSessionState s.sessions peer .closing sess hsess
  · rw [hs]

/-- A service with one initialized session for peer 8. -/
def sessionService : ServiceState :=
  ⟨1, 777, 0, [5], "git-node-a", [9], [(8, ⟨8, .outbound, .initialized, 0⟩)], []⟩

/-- C6 witness: a `0xDEADBEEF`-tagged envelope on the session service closes the
session and emits the protocol-error disconnect. -/
theorem received_wrong_magic_holds :
    lookupSession
        (sessionService.receivedMessage 8
          ⟨3735928559, .inventoryAnnouncement 2 [] 0⟩).sessions 8 =
      some ⟨8, .outbound, .closing, 0⟩ ∧
    (sessionService.receivedMessage 8
        ⟨3735928559, .inventoryAnnouncement 2 [] 0⟩).outbox =
      sessionService.outbox ++ [.disconnect 8 .protocolError] ∧
    sessionService.receivedMessage 8 ⟨3735928559, .inventoryAnnouncement 2 [] 0⟩ =
      { sessionService with
          sessions := setSessionState sessionService.sessions 8 .closing,
          outbox := sessionService.outbox ++ [.disconnect 8 .protocolError] } :=
  received_wrong_magic sessionService 8 ⟨3735928559, .inventoryAnnouncement 2 [] 0⟩
    ⟨8, .outbound, .initialized, 0⟩ rfl (by decide)

/-- C7: the harness `initialize` input is idempotent: a second call with the same
time leaves the whole peer state, its service state and outbox included,
unchanged. -/
theorem peer_init_idempotent (p : PeerState) (now : Nat) :
    (p.init now).init now = p.init now := by
  unfold PeerState.init
  by_cases h : p.initialized
  · simp [h]
  · simp [h]

end Node
